import Mathlib

/-!
Verification development for the momentum-ia conversational coaching bot.

The definitions below are a shallow embedding of the Python source:
`apis/whatsapp.py` (webhook handler and phone canonicalization),
`services/tools/database_tools.py` (Supabase-backed tools),
`services/tools/communication_tools.py` (Twilio sends and the proof FSM) and
`services/tools/verification_tools.py` (flow verification record tool).

The Supabase store is modelled as three in-memory tables; a `select ... eq`
query returns the matching rows in table (insertion) order, and `data[0]`
is the head of that list.  External time (`date.today()`, `datetime.now()`)
and the Twilio delivery SID are supplied through an explicit `Env`.
Storage-level failures (network errors, the missing-column schema fallback)
are outside the model: every modelled query sees the schema of
`users(phone_number, name, proof_submission_state, proof_submission_data)`,
`commitments(...)`, `verifications(...)` from the spec.
-/

/-! ## Phone canonicalization (apis/whatsapp.py, lines 34-44) -/

/-- The channel tag `"whatsapp:"` that the webhook strips and reattaches. -/
def waTag : List Char := "whatsapp:".data

/-- Python `s.replace("whatsapp:", "")`: removes the non-overlapping
occurrences of `"whatsapp:"` scanning left to right, exactly as CPython
does (a junction formed by a removal is not re-scanned). -/
def removeAllWA : List Char → List Char
  | 'w' :: 'h' :: 'a' :: 't' :: 's' :: 'a' :: 'p' :: 'p' :: ':' :: rest => removeAllWA rest
  | c :: rest => c :: removeAllWA rest
  | [] => []

/-- Whether `"whatsapp:"` occurs as a substring. -/
def containsWA : List Char → Bool
  | [] => false
  | c :: rest => waTag.isPrefixOf (c :: rest) || containsWA rest

/-- The whitespace set of Python `str.strip()`, restricted to ASCII
(the only characters that can appear in a sender id). -/
def isPySpace (c : Char) : Bool :=
  c = ' ' || c = '\t' || c = '\n' || c = '\x0d' || c = '\x0b' || c = '\x0c'

/-- Python `str.strip()`. -/
def pyStrip (s : List Char) : List Char :=
  ((s.dropWhile isPySpace).reverse.dropWhile isPySpace).reverse

/-- Python `if not number_only.startswith("+"): number_only = f"+{number_only}"`. -/
def plusify (s : List Char) : List Char :=
  if s.head? = some '+' then s else '+' :: s

/-- The canonicalization block of `handle_whatsapp_message` on the raw
`From` value: if it starts with `"whatsapp:"`, remove every occurrence of
the tag, strip whitespace, ensure a leading `+`, and reattach the tag;
otherwise the value is left unchanged.  (The guard in the source is
`if from_number and from_number.startswith("whatsapp:")`; the extra
truthiness conjunct is redundant since `""` has no prefix.) -/
def canonChars (s : List Char) : List Char :=
  if waTag.isPrefixOf s then waTag ++ plusify (pyStrip (removeAllWA s)) else s

/-- Canonicalization on `String`. -/
def canon (s : String) : String := ⟨canonChars s.data⟩

/-! ## Python substring test (`sub in s`) -/

/-- True iff `sub` occurs as a contiguous substring of `s`. -/
def listContains (sub : List Char) : List Char → Bool
  | [] => sub.isEmpty
  | c :: rest => sub.isPrefixOf (c :: rest) || listContains sub rest

/-- Python `sub in s` on strings. -/
def strContains (s sub : String) : Bool := listContains sub.data s.data

/-! ## Data model (logical schema of the Supabase store) -/

/-- A row of `users`. -/
structure UserRow where
  id : Nat
  phone_number : String
  name : Option String
  proof_submission_state : Option String
  proof_submission_data : Option (List (String × String))
  deriving DecidableEq

/-- A row of `commitments`.  `stake_amount` is a Python float; the stakes the
system handles are exact decimals, modelled as rationals.  The insert in
`create_commitment` carries no `status` key; the column value comes from the
table default, which is not under `src/`.
Modelled from the spec: the schema default for `commitments.status`, per
"Inserts a Commitment row with status `active`" (§4.3) and the `active |
terminal states` attribute of §3 — a freshly inserted commitment row has
status `"active"`. -/
structure CommitmentRow where
  id : Nat
  user_id : Nat
  goal_description : String
  task_description : Option String
  stake_amount : ℚ
  stake_type : String
  start_date : String
  end_date : String
  schedule : List (String × Bool)
  verification_method : Option String
  status : String
  deriving DecidableEq

/-- A row of `verifications`. -/
structure VerificationRow where
  commitment_id : Nat
  due_date : String
  status : String
  proof_url : Option String
  justification : Option String
  verified_at : String
  deriving DecidableEq

/-- The relational store.  Inserts append, so each `List` holds the rows in
insertion order; `nextUserId`/`nextCommitmentId` model the generated ids. -/
structure DB where
  users : List UserRow
  commitments : List CommitmentRow
  verifications : List VerificationRow
  nextUserId : Nat
  nextCommitmentId : Nat
  deriving DecidableEq

/-- Model of `supabase.table("users").select(...).eq("phone_number", p).execute().data`. -/
def usersFor (db : DB) (phone : String) : List UserRow :=
  db.users.filter (fun u => u.phone_number == phone)

/-- Model of `supabase.table("commitments").select(...).eq("user_id", uid).eq("status", "active").execute().data`. -/
def activeFor (db : DB) (uid : Nat) : List CommitmentRow :=
  db.commitments.filter (fun c => c.user_id == uid && c.status == "active")

/-- Python truthiness of `user.get("name")`: `None` and `""` are falsy. -/
def pyTruthyStr : Option String → Bool
  | none => false
  | some s => s != ""

/-- Rendering of an optional column in an f-string through
`commitment.get(key, default)`: `select("*")` returns every column, so the
key is always present and the default never fires — a null column renders
as Python `str(None) = "None"`. -/
def pyOptStr : Option String → String
  | some s => s
  | none => "None"

/-- Python float formatting of the stake inside f-strings, exact for the
integral stakes exercised here (`f"{25.0}" = "25.0"`). -/
def floatStr (q : ℚ) : String :=
  if q.den == 1 then toString q.num ++ ".0" else toString q

/-- Python `repr` of a `Dict[str, str]` as interpolated by f-strings. -/
def pyDictRepr (d : List (String × String)) : String :=
  "\x7b" ++ String.intercalate ", "
    (d.map (fun kv => "\x27" ++ kv.1 ++ "\x27: \x27" ++ kv.2 ++ "\x27")) ++ "\x7d"

/-- One key assignment of Python `dict.update`: an existing key is
overwritten in place, a new key is appended. -/
def dictSet (d : List (String × String)) (kv : String × String) : List (String × String) :=
  if d.any (fun p => p.1 == kv.1) then
    d.map (fun p => if p.1 == kv.1 then kv else p)
  else d ++ [kv]

/-- Python `current_proof_data.update(proof_data)`. -/
def dictUpdate (cur upd : List (String × String)) : List (String × String) :=
  upd.foldl dictSet cur

/-! ## database_tools.py -/

/-- The row that `get_user_status` inserts for an unseen phone: the
`user_data = {"phone_number": phone_number}` dict plus the generated id;
every other column is null. -/
def createdUser (db : DB) (phone_number : String) : UserRow :=
  { id := db.nextUserId, phone_number := phone_number, name := none,
    proof_submission_state := none, proof_submission_data := none }

/-- Tool 1, `get_user_status`: looks a user up by phone, creating the row
on first contact; classifies existing users by name and active commitment.
The Supabase insert is modelled as always succeeding (its
`error_creating_user` branch and the `except` fallback to
`error_database_check` are storage failures outside the model). -/
def get_user_status (db : DB) (phone_number : String) : DB × String :=
  match usersFor db phone_number with
  | [] =>
      ({ db with users := db.users ++ [createdUser db phone_number],
                 nextUserId := db.nextUserId + 1 },
       "new_user")
  | user :: _ =>
      if !pyTruthyStr user.name then (db, "new_user")
      else if !(activeFor db user.id).isEmpty then
        (db, "user_exists_active_goal:" ++ user.name.getD "User")
      else
        (db, "user_exists_no_goal:" ++ user.name.getD "User")

/-- Tool 2, `update_user_name`: sets the name on every row matching the
phone; `response.data` is nonempty exactly when a row matched. -/
def update_user_name (db : DB) (phone_number name : String) : DB × String :=
  let updated := db.users.map (fun u =>
    if u.phone_number == phone_number then { u with name := some name } else u)
  if db.users.any (fun u => u.phone_number == phone_number) then
    ({ db with users := updated }, "Successfully updated user\x27s name to " ++ name ++ ".")
  else (db, "Error: Could not find user to update.")

/-- The human-readable summary `get_active_commitment` formats. -/
def commitmentSummary (c : CommitmentRow) : String :=
  "Active Goal: " ++ c.goal_description ++ "\nTask: " ++ pyOptStr c.task_description
    ++ "\nStake: $" ++ floatStr c.stake_amount ++ " (" ++ c.stake_type
    ++ ")\nPeriod: " ++ c.start_date ++ " to " ++ c.end_date
    ++ "\nVerification: " ++ pyOptStr c.verification_method

/-- The row that `create_commitment` inserts: the `commitment_data` dict
(with the schedule defaulted to `{"daily": True}` when omitted) plus the
generated id and the modelled `status` schema default (see
`CommitmentRow`). -/
def insertedCommitment (db : DB) (uid : Nat) (goal_description : String)
    (stake_amount : ℚ) (start_date end_date : String)
    (task_description : Option String) (stake_type : String)
    (schedule : Option (List (String × Bool))) (verification_method : Option String) :
    CommitmentRow :=
  { id := db.nextCommitmentId, user_id := uid,
    goal_description := goal_description, task_description := task_description,
    stake_amount := stake_amount, stake_type := stake_type,
    start_date := start_date, end_date := end_date,
    schedule := schedule.getD [("daily", true)],
    verification_method := verification_method, status := "active" }

/-- Tool 3, `create_commitment`: resolves the user by phone, defaults the
schedule to `{"daily": True}`, inserts the commitment row and returns a
success summary.  No check against an existing active commitment is
made. -/
def create_commitment (db : DB) (phone_number goal_description : String)
    (stake_amount : ℚ) (start_date end_date : String)
    (task_description : Option String) (stake_type : String)
    (schedule : Option (List (String × Bool))) (verification_method : Option String) :
    DB × String :=
  match usersFor db phone_number with
  | [] => (db, "Error: User not found. Please make sure the user is registered first.")
  | user :: _ =>
      ({ db with commitments := db.commitments
                   ++ [insertedCommitment db user.id goal_description stake_amount
                         start_date end_date task_description stake_type
                         schedule verification_method],
                 nextCommitmentId := db.nextCommitmentId + 1 },
       "Successfully created commitment! Goal: " ++ goal_description ++ ", Stake: $"
         ++ floatStr stake_amount ++ " (" ++ stake_type ++ "), Period: "
         ++ start_date ++ " to " ++ end_date)

/-- Tool 4, `get_active_commitment`: user lookup, then the first row of the
active-commitment query, formatted. -/
def get_active_commitment (db : DB) (phone_number : String) : String :=
  match usersFor db phone_number with
  | [] => "Error: User not found."
  | user :: _ =>
      match activeFor db user.id with
      | [] => "No active commitment found."
      | c :: _ => commitmentSummary c

/-- External inputs of a turn: wall-clock values, the Twilio message SID,
whether the Twilio credentials are configured, and whether the reasoning
agent call succeeds (with its exception text). -/
structure Env where
  today : String
  now : String
  sid : String
  twilioConfigured : Bool
  agentOk : Bool
  agentErrMsg : String

/-- Tool 5, `create_verification`: resolves the user and their first active
commitment, then inserts a verification row with the hard-coded status
`"completed_on_time"` and `verified_at = datetime.now().isoformat()`. -/
def create_verification (env : Env) (db : DB) (phone_number due_date : String)
    (proof_url justification : Option String) : DB × String :=
  match usersFor db phone_number with
  | [] => (db, "Error: User not found.")
  | user :: _ =>
      match activeFor db user.id with
      | [] => (db, "Error: No active commitment found.")
      | c :: _ =>
          let v : VerificationRow :=
            { commitment_id := c.id, due_date := due_date,
              status := "completed_on_time", proof_url := proof_url,
              justification := justification, verified_at := env.now }
          ({ db with verifications := db.verifications ++ [v] },
           "Verification recorded successfully for " ++ due_date ++ "!")

/-- The `proof_submission_data` value `manage_proof_submission_state`
writes back: the current data (`or {}`), updated with `proof_data` when
that is truthy (non-`None` and non-empty), stored as `None` when empty.
Note the source never clears existing data: with `proof_data=None` a
non-empty current value is written back unchanged. -/
def manageNewData (existing proof_data : Option (List (String × String))) :
    Option (List (String × String)) :=
  let current := existing.getD []
  let current :=
    match proof_data with
    | some pd => if pd.isEmpty then current else dictUpdate current pd
    | none => current
  if current.isEmpty then none else some current

/-- Tool 6, `manage_proof_submission_state`: reads the user row, merges the
proof data via `manageNewData`, and updates `proof_submission_state` and
`proof_submission_data` on every row carrying the id of that user.  The
missing-column schema fallback of the source is outside the model (the
modelled schema has the columns).  The result message follows the
truthiness of `state` (`None` and `""` report "cleared"); the
`update_response.data` check mirrors whether any row matched. -/
def manage_proof_submission_state (db : DB) (phone_number : String)
    (state : Option String) (proof_data : Option (List (String × String))) :
    DB × String :=
  match usersFor db phone_number with
  | [] => (db, "Error: User not found.")
  | user :: _ =>
      let newData := manageNewData user.proof_submission_data proof_data
      let updatedUsers := db.users.map (fun u =>
        if u.id == user.id then
          { u with proof_submission_state := state, proof_submission_data := newData }
        else u)
      ({ db with users := updatedUsers },
       if db.users.any (fun u => u.id == user.id) then
         match state with
         | some s =>
             if s == "" then "User proof submission state cleared"
             else "User proof submission state updated to: " ++ s
         | none => "User proof submission state cleared"
       else "Error updating user state")

/-- Tool 7, `get_proof_submission_state`: pure read of the proof-state
columns; a missing user yields the sentinel `"Error: User not found."`,
a falsy state (`None` or `""`) yields the no-active sentinel, otherwise
the state and the data dict are interpolated into the result. -/
def get_proof_submission_state (db : DB) (phone_number : String) : String :=
  match usersFor db phone_number with
  | [] => "Error: User not found."
  | user :: _ =>
      match user.proof_submission_state with
      | none => "No active proof submission process"
      | some s =>
          if s == "" then "No active proof submission process"
          else "State: " ++ s ++ ", Data: "
                 ++ pyDictRepr (user.proof_submission_data.getD [])

/-! ## communication_tools.py and the observable effects of the webhook -/

/-- The store plus the outbound effects of a turn: Twilio message creates
`(to, body)` in order, and the contents handed to the reasoning agent. -/
structure World where
  db : DB
  sends : List (String × String)
  agentCalls : List String
  deriving DecidableEq

/-- Tool `send_whatsapp_message`: checks the Twilio credentials, then creates
the message.  Delivery is modelled as succeeding (the `except` branch
returns `"Error sending message: {e}"` and concerns no claim). -/
def send_whatsapp_message (env : Env) (w : World) (to_number body : String) :
    World × String :=
  if !env.twilioConfigured then (w, "Error: Twilio credentials are not configured.")
  else ({ w with sends := w.sends ++ [(to_number, body)] },
        "Message sent successfully with SID: " ++ env.sid)

/-- The prompt body `start_proof_submission` sends. -/
def proofPromptBody : String :=
  "📸 **Submit Your Proof**\n\nPlease take a photo to verify you\x27ve completed your task for today.\n\nSend me the photo now and I\x27ll record your proof submission."

/-- Tool `start_proof_submission`: sets the state to `awaiting_proof_photo`
(ignoring the result of that tool), then sends the prompt with an inline copy of
the Twilio send. -/
def start_proof_submission (env : Env) (w : World) (to_number : String) :
    World × String :=
  let r1 := manage_proof_submission_state w.db to_number (some "awaiting_proof_photo") none
  let w1 := { w with db := r1.1 }
  if !env.twilioConfigured then (w1, "Error: Twilio credentials are not configured.")
  else ({ w1 with sends := w1.sends ++ [(to_number, proofPromptBody)] },
        "Proof submission process started with SID: " ++ env.sid)

/-- The success confirmation `process_proof_submission_response` sends. -/
def proofSuccessBody : String :=
  "✅ **Proof Submitted Successfully!**\n\nYour photo proof has been recorded. Keep up the great work! 💪"

/-- Tool `process_proof_submission_response`: guards on substring tests against
the state string; with a photo it clears the state (passing
`proof_data=None`), records a verification dated `date.today()` with the
message (or a default) as justification, and sends the confirmation. -/
def process_proof_submission_response (env : Env) (w : World)
    (phone_number user_message : String) (media_url : Option String) :
    World × String :=
  let state_result := get_proof_submission_state w.db phone_number
  if strContains state_result "No active proof submission process" then
    (w, "No active proof submission process. Use start_proof_submission to begin.")
  else if strContains state_result "State: awaiting_proof_photo" then
    match media_url with
    | none =>
        send_whatsapp_message env w phone_number
          "📸 Please send a photo to complete your proof submission."
    | some m =>
        let r1 := manage_proof_submission_state w.db phone_number none none
        let w1 := { w with db := r1.1 }
        let r2 := create_verification env w1.db phone_number env.today (some m)
          (some (if user_message == "" then "Photo proof submitted" else user_message))
        let w2 := { w1 with db := r2.1 }
        send_whatsapp_message env w2 phone_number proofSuccessBody
  else (w, "Unknown proof submission state.")

/-! ## apis/whatsapp.py: the POST /webhook handler -/

/-- The inbound form data; `form_data.get(key, "")` makes a missing field
and an empty one indistinguishable downstream.  `flowResponse` appears in
the external interface but is never read by the handler. -/
structure Form where
  body : Option String
  sender : Option String
  mediaUrl0 : Option String
  flowResponse : Option String
  deriving DecidableEq

/-- The JSON result of the handler. -/
inductive WebResp where
  | ok
  | error (message : String)
  deriving DecidableEq

/-- The content string handed to the agent. -/
def agentMessage (phone msg : String) : String :=
  "My phone number is " ++ phone ++ ". My message is: \x27" ++ msg ++ "\x27"

/-- Handler `handle_whatsapp_message`: reads `Body`/`From`/`MediaUrl0`,
canonicalizes the sender, rejects a missing sender, short-circuits into the
proof-submission flow when the state string lacks the no-active sentinel,
and otherwise invokes the agent with a placeholder for an empty body.  The
`except` around the state check cannot fire in the model (no query
raises); agent failure is reported as `"Agent error: ..."`. -/
def handle_whatsapp_message (env : Env) (w : World) (form : Form) :
    World × WebResp :=
  let incoming_msg := form.body.getD ""
  let media_url := form.mediaUrl0.getD ""
  let from_number := canon (form.sender.getD "")
  if from_number == "" then (w, WebResp.error "Missing sender number")
  else
    let state_result := get_proof_submission_state w.db from_number
    if !strContains state_result "No active proof submission process" then
      let r := process_proof_submission_response env w from_number
        (if incoming_msg == "" then "[Media]" else incoming_msg)
        (if media_url == "" then none else some media_url)
      (r.1, WebResp.ok)
    else
      let incoming_msg := if incoming_msg == "" then "[Media message received]" else incoming_msg
      let w1 := { w with agentCalls := w.agentCalls ++ [agentMessage from_number incoming_msg] }
      if env.agentOk then (w1, WebResp.ok)
      else (w1, WebResp.error ("Agent error: " ++ env.agentErrMsg))

/-! ## verification_tools.py: create_verification_record -/

/-- Parameter names declared by `create_verification`
(`phone_number, due_date, proof_url, justification`). -/
def createVerificationParams : List String :=
  ["phone_number", "due_date", "proof_url", "justification"]

/-- Parameters of `create_verification` without a default value. -/
def createVerificationRequired : List String := ["phone_number", "due_date"]

/-- Keyword names used at the call site inside `create_verification_record`
(`user_phone=..., status=..., proof_url=..., notes=...`). -/
def recordCallKwargs : List String := ["user_phone", "status", "proof_url", "notes"]

/-- Python keyword binding succeeds iff every supplied keyword is a declared
parameter and every required parameter is supplied; otherwise the call
raises `TypeError`. -/
def kwargsBind (params required kwargs : List String) : Bool :=
  kwargs.all (fun k => params.contains k) && required.all (fun k => kwargs.contains k)

/-- The fields of `json.loads(verification_result)` that
`create_verification_record` consults (`completed`, `reasoning`); `none`
models a `json.JSONDecodeError`. -/
structure FlowVerdict where
  completed : Bool
  reasoning : String
  deriving DecidableEq

/-- Tool `create_verification_record` from verification_tools.py: parses the
verdict, derives a status, then calls
`create_verification(user_phone=..., status=..., proof_url=..., notes=...)`.
The keyword names do not bind against the parameters of `create_verification`,
so the call raises `TypeError` and the `except` returns the error string.
The then-branch shows what a successful binding would have run; it is
unreachable because `kwargsBind` is false for these names. -/
def create_verification_record (env : Env) (db : DB)
    (user_phone goal_description : String) (parsed : Option FlowVerdict) :
    DB × String :=
  match parsed with
  | none => (db, "Error creating verification record: invalid verification_result JSON")
  | some r =>
      let verification_status := if r.completed then "completed" else "attempted"
      if kwargsBind createVerificationParams createVerificationRequired recordCallKwargs then
        create_verification env db user_phone verification_status
          (some "flow_verification") (some r.reasoning)
      else
        (db, "Error creating verification record: create_verification() got an unexpected keyword argument \x27user_phone\x27")


/-! ## Helper lemmas about canonicalization -/

theorem removeAllWA_of_not_contains (s : List Char) (h : containsWA s = false) :
    removeAllWA s = s := by
  induction s using removeAllWA.induct with
  | case1 rest ih =>
      simp [containsWA, waTag, List.isPrefixOf] at h
  | case2 c rest h9 ih =>
      simp only [containsWA, Bool.or_eq_false_iff] at h
      rw [removeAllWA, ih h.2]
      exact h9
  | case3 => rfl

theorem removeAllWA_waTag_append (t : List Char) :
    removeAllWA (waTag ++ t) = removeAllWA t := rfl

theorem containsWA_cons_plus (s : List Char) (h : containsWA s = false) :
    containsWA ('+' :: s) = false := by
  simp [containsWA, waTag, List.isPrefixOf, h]

theorem containsWA_plusify (s : List Char) (h : containsWA s = false) :
    containsWA (plusify s) = false := by
  rw [plusify]
  split
  · exact h
  · exact containsWA_cons_plus s h

theorem head?_plusify (t : List Char) : (plusify t).head? = some '+' := by
  rw [plusify]
  split
  · next hc => exact hc
  · rfl

theorem plusify_plusify (s : List Char) : plusify (plusify s) = plusify s := by
  rw [plusify, head?_plusify]
  simp

theorem dropWhile_eq_self_of_head (p : Char → Bool) (s : List Char)
    (h : ∀ c, s.head? = some c → p c = false) : s.dropWhile p = s := by
  cases s with
  | nil => rfl
  | cons c rest =>
      rw [List.dropWhile_cons_of_neg]
      simp [h c rfl]

theorem head?_dropWhile (p : Char → Bool) (l : List Char) (c : Char)
    (h : (l.dropWhile p).head? = some c) : p c = false := by
  have hne : l.dropWhile p ≠ [] := by
    intro e
    rw [e] at h
    exact Option.noConfusion h
  have hh := List.head_dropWhile_not p l hne
  rw [List.head?_eq_head hne] at h
  simpa [Option.some_inj.mp h] using hh

theorem pyStrip_getLast (q : List Char) (c : Char)
    (h : (pyStrip q).getLast? = some c) : isPySpace c = false := by
  unfold pyStrip at h
  rw [List.getLast?_reverse] at h
  exact head?_dropWhile _ _ _ h

theorem getLast?_plusify (t : List Char) (ht : t ≠ []) :
    (plusify t).getLast? = t.getLast? := by
  rw [plusify]
  split
  · rfl
  · match t, ht with
    | x :: xs, _ => rw [List.getLast?_cons_cons]

theorem pyStrip_plusify_pyStrip (q : List Char) :
    pyStrip (plusify (pyStrip q)) = plusify (pyStrip q) := by
  show (((plusify (pyStrip q)).dropWhile isPySpace).reverse.dropWhile isPySpace).reverse
      = plusify (pyStrip q)
  rw [dropWhile_eq_self_of_head isPySpace (plusify (pyStrip q))
      (by intro c hc; rw [head?_plusify] at hc; cases hc; decide)]
  rw [dropWhile_eq_self_of_head isPySpace (plusify (pyStrip q)).reverse ?hlast]
  · exact List.reverse_reverse _
  case hlast =>
    intro c hc
    rw [List.head?_reverse] at hc
    rcases eq_or_ne (pyStrip q) [] with he | hne
    · rw [he] at hc
      simp [plusify] at hc
      cases hc
      decide
    · rw [getLast?_plusify _ hne] at hc
      exact pyStrip_getLast q c hc

theorem canonChars_idem (s : List Char)
    (h : containsWA (pyStrip (removeAllWA s)) = false) :
    canonChars (canonChars s) = canonChars s := by
  by_cases hp : waTag.isPrefixOf s
  · have h1 : canonChars s = waTag ++ plusify (pyStrip (removeAllWA s)) := by
      simp [canonChars, hp]
    have hp2 : waTag.isPrefixOf (waTag ++ plusify (pyStrip (removeAllWA s))) := by
      exact List.isPrefixOf_iff_prefix.mpr (List.prefix_append _ _)
    rw [h1]
    simp only [canonChars, hp2, if_true]
    rw [removeAllWA_waTag_append]
    rw [removeAllWA_of_not_contains _ (containsWA_plusify _ h)]
    rw [pyStrip_plusify_pyStrip]
    rw [plusify_plusify]
  · simp [canonChars, hp]

/-! ## Helper lemmas about the substring test and row queries -/

theorem listContains_of_isPrefixOf (sub s : List Char)
    (h : sub.isPrefixOf s = true) : listContains sub s = true := by
  cases s with
  | nil =>
      cases sub with
      | nil => rfl
      | cons a t => simp [List.isPrefixOf] at h
  | cons c rest => simp [listContains, h]

theorem strContains_append_left (pre r sub : String)
    (h : sub.data.isPrefixOf pre.data = true) :
    strContains (pre ++ r) sub = true := by
  show listContains sub.data (pre ++ r).data = true
  apply listContains_of_isPrefixOf
  rw [String.data_append]
  exact List.isPrefixOf_iff_prefix.mpr
    ((List.isPrefixOf_iff_prefix.mp h).trans (List.prefix_append _ _))

theorem notFound_lacks_noActive :
    strContains "Error: User not found." "No active proof submission process" = false := by
  decide

theorem notFound_lacks_awaiting :
    strContains "Error: User not found." "State: awaiting_proof_photo" = false := by
  decide

theorem filter_map_phone (l : List UserRow) (phone : String) (f : UserRow → UserRow)
    (hf : ∀ r, (f r).phone_number = r.phone_number) :
    (l.map f).filter (fun u => u.phone_number == phone)
      = (l.filter (fun u => u.phone_number == phone)).map f := by
  rw [List.filter_map]
  congr 1
  apply List.filter_congr
  intro r _
  simp [Function.comp, hf r]

theorem manage_state_db (db : DB) (phone : String) (st : Option String)
    (pd : Option (List (String × String))) (u : UserRow) (us : List UserRow)
    (hu : usersFor db phone = u :: us) :
    (manage_proof_submission_state db phone st pd).1
      = { db with users := db.users.map (fun r =>
            if r.id == u.id then
              { r with proof_submission_state := st,
                       proof_submission_data := manageNewData u.proof_submission_data pd }
            else r) } := by
  simp [manage_proof_submission_state, hu]

theorem create_verification_eq (env : Env) (db : DB) (phone due : String)
    (pu j : Option String) (u : UserRow) (us : List UserRow)
    (c : CommitmentRow) (cs : List CommitmentRow)
    (hu : usersFor db phone = u :: us) (hc : activeFor db u.id = c :: cs) :
    create_verification env db phone due pu j
      = ({ db with verifications := db.verifications
             ++ [{ commitment_id := c.id, due_date := due, status := "completed_on_time",
                   proof_url := pu, justification := j, verified_at := env.now }] },
         "Verification recorded successfully for " ++ due ++ "!") := by
  simp [create_verification, hu, hc]

/-! ## Concrete fixtures -/

/-- A fully configured environment for concrete runs. -/
def envA : Env :=
  { today := "2024-01-20", now := "2024-01-20T10:00:00", sid := "SM123",
    twilioConfigured := true, agentOk := true, agentErrMsg := "boom" }

def alexPhone : String := "whatsapp:+15550001111"

def alexUser : UserRow :=
  { id := 0, phone_number := alexPhone, name := some "Alex",
    proof_submission_state := none, proof_submission_data := none }

def oldCommitment : CommitmentRow :=
  { id := 0, user_id := 0, goal_description := "Old goal", task_description := none,
    stake_amount := 10, stake_type := "one_time_on_failure", start_date := "2024-01-01",
    end_date := "2024-03-01", schedule := [("daily", true)], verification_method := none,
    status := "active" }

def emptyDB : DB :=
  { users := [], commitments := [], verifications := [], nextUserId := 0, nextCommitmentId := 0 }

def dbAlexOnly : DB := { emptyDB with users := [alexUser], nextUserId := 1 }

def dbWithActive : DB := { dbAlexOnly with commitments := [oldCommitment], nextCommitmentId := 1 }

/-- Alex mid-proof-submission with a non-empty stale payload. -/
def awaitingUser : UserRow :=
  { alexUser with proof_submission_state := some "awaiting_proof_photo",
                  proof_submission_data := some [("type", "photo")] }

def dbAwaiting : DB := { dbWithActive with users := [awaitingUser] }

/-- Alex with no submission in progress but a stale payload left over. -/
def staleUser : UserRow :=
  { alexUser with proof_submission_data := some [("type", "photo")] }

def dbStale : DB := { dbAlexOnly with users := [staleUser] }

def worldOf (db : DB) : World := { db := db, sends := [], agentCalls := [] }

/-- A request with a sender but neither body nor media nor flow data. -/
def form7 : Form :=
  { body := none, sender := some alexPhone, mediaUrl0 := none, flowResponse := none }

/-- A request with no `From` field. -/
def form8 : Form :=
  { body := some "hello", sender := none, mediaUrl0 := none, flowResponse := none }

/-- A plain text message from a sender with no user row. -/
def form9 : Form :=
  { body := some "hi", sender := some "whatsapp:5215512345678", mediaUrl0 := none,
    flowResponse := none }

/-! ## Claims C1, C2, C4, C5, C10 -/

/-- Claim C1 counterexample: with an active commitment already present,
`create_commitment` is not rejected (it returns the success string), the
old commitment is not superseded, and a second active commitment now
exists for the same user. -/
theorem C1_counterexample :
    (create_commitment dbWithActive alexPhone "Exercise daily" 25 "2024-01-15" "2024-02-15"
        none "one_time_on_failure" none none).2
      = "Successfully created commitment! Goal: Exercise daily, Stake: $25.0 (one_time_on_failure), Period: 2024-01-15 to 2024-02-15"
    ∧ (activeFor (create_commitment dbWithActive alexPhone "Exercise daily" 25 "2024-01-15"
        "2024-02-15" none "one_time_on_failure" none none).1 0).length = 2 := by
  constructor
  · decide
  · decide

/-- Claim C1, amended: `create_commitment` does not enforce the
single-active invariant — called for a user who already has an active
commitment it succeeds and appends a second commitment with status
`active`, leaving every previous active commitment in place. -/
theorem C1_amended_no_enforcement (db : DB) (p goal : String) (stake : ℚ)
    (sd ed : String) (task : Option String) (st : String)
    (sch : Option (List (String × Bool))) (vm : Option String)
    (u : UserRow) (us : List UserRow) (c : CommitmentRow) (cs : List CommitmentRow)
    (hu : usersFor db p = u :: us) (hc : activeFor db u.id = c :: cs) :
    (create_commitment db p goal stake sd ed task st sch vm).2
      = "Successfully created commitment! Goal: " ++ goal ++ ", Stake: $"
          ++ floatStr stake ++ " (" ++ st ++ "), Period: " ++ sd ++ " to " ++ ed
    ∧ activeFor (create_commitment db p goal stake sd ed task st sch vm).1 u.id
      = (c :: cs) ++ [insertedCommitment db u.id goal stake sd ed task st sch vm] := by
  have hc' : db.commitments.filter (fun x => x.user_id == u.id && x.status == "active")
      = c :: cs := hc
  constructor
  · simp [create_commitment, hu]
  · simp [create_commitment, hu, activeFor, List.filter_append, hc', insertedCommitment]

/-- Claim C1 witness for the amended theorem, at `dbWithActive`. -/
theorem C1_amended_witness :
    usersFor dbWithActive alexPhone = alexUser :: []
    ∧ activeFor dbWithActive alexUser.id = oldCommitment :: []
    ∧ (create_commitment dbWithActive alexPhone "Exercise daily" 25 "2024-01-15" "2024-02-15"
        none "one_time_on_failure" none none).2
      = "Successfully created commitment! Goal: " ++ "Exercise daily" ++ ", Stake: $"
          ++ floatStr 25 ++ " (" ++ "one_time_on_failure" ++ "), Period: "
          ++ "2024-01-15" ++ " to " ++ "2024-02-15"
    ∧ activeFor (create_commitment dbWithActive alexPhone "Exercise daily" 25 "2024-01-15"
        "2024-02-15" none "one_time_on_failure" none none).1 alexUser.id
      = (oldCommitment :: []) ++ [insertedCommitment dbWithActive alexUser.id
          "Exercise daily" 25 "2024-01-15" "2024-02-15" none "one_time_on_failure"
          none none] := by
  have h := C1_amended_no_enforcement dbWithActive alexPhone "Exercise daily" 25
    "2024-01-15" "2024-02-15" none "one_time_on_failure" none none
    alexUser [] oldCommitment [] (by decide) (by decide)
  exact ⟨by decide, by decide, h.1, h.2⟩

/-- Claim C2 counterexample: the hypotheses of the claim hold (user exists, the
insert succeeds — the success string is returned), yet the immediately
following `get_active_commitment` does not return the inserted commitment:
it formats the pre-existing active commitment ("Old goal") and its summary
never mentions "Exercise daily". -/
theorem C2_counterexample :
    (create_commitment dbWithActive alexPhone "Exercise daily" 25 "2024-01-15" "2024-02-15"
        none "one_time_on_failure" none none).2
      = "Successfully created commitment! Goal: Exercise daily, Stake: $25.0 (one_time_on_failure), Period: 2024-01-15 to 2024-02-15"
    ∧ get_active_commitment (create_commitment dbWithActive alexPhone "Exercise daily" 25
        "2024-01-15" "2024-02-15" none "one_time_on_failure" none none).1 alexPhone
      = commitmentSummary oldCommitment
    ∧ strContains (get_active_commitment (create_commitment dbWithActive alexPhone
        "Exercise daily" 25 "2024-01-15" "2024-02-15" none "one_time_on_failure" none none).1
        alexPhone) "Exercise daily" = false := by
  refine ⟨by decide, by decide, by decide⟩

/-- Claim C2, amended: a successful `create_commitment` appends a row with
status `active`; when the user had no active commitment before the call,
`get_active_commitment` then returns exactly the summary of that commitment
(with a pre-existing active commitment it returns the earliest-inserted
one instead). -/
theorem C2_amended_create_then_lookup (db : DB) (p goal : String) (stake : ℚ)
    (sd ed : String) (task : Option String) (st : String)
    (sch : Option (List (String × Bool))) (vm : Option String)
    (u : UserRow) (us : List UserRow)
    (hu : usersFor db p = u :: us) (hnoact : activeFor db u.id = []) :
    (create_commitment db p goal stake sd ed task st sch vm).2
      = "Successfully created commitment! Goal: " ++ goal ++ ", Stake: $"
          ++ floatStr stake ++ " (" ++ st ++ "), Period: " ++ sd ++ " to " ++ ed
    ∧ (create_commitment db p goal stake sd ed task st sch vm).1.commitments
      = db.commitments ++ [insertedCommitment db u.id goal stake sd ed task st sch vm]
    ∧ (insertedCommitment db u.id goal stake sd ed task st sch vm).status = "active"
    ∧ get_active_commitment (create_commitment db p goal stake sd ed task st sch vm).1 p
      = commitmentSummary (insertedCommitment db u.id goal stake sd ed task st sch vm) := by
  have hu' : db.users.filter (fun x => x.phone_number == p) = u :: us := hu
  have hnoact' : db.commitments.filter (fun x => x.user_id == u.id && x.status == "active")
      = [] := hnoact
  refine ⟨by simp [create_commitment, hu], by simp [create_commitment, hu],
    rfl, ?_⟩
  simp [create_commitment, hu, get_active_commitment, usersFor, hu', activeFor,
    List.filter_append, hnoact', insertedCommitment]

/-- Claim C2 witness for the amended theorem: Alex with no commitment. -/
theorem C2_amended_witness :
    usersFor dbAlexOnly alexPhone = alexUser :: []
    ∧ activeFor dbAlexOnly alexUser.id = []
    ∧ (insertedCommitment dbAlexOnly alexUser.id "Exercise daily" 25 "2024-01-15"
        "2024-02-15" none "one_time_on_failure" none none).status = "active"
    ∧ get_active_commitment (create_commitment dbAlexOnly alexPhone "Exercise daily" 25
        "2024-01-15" "2024-02-15" none "one_time_on_failure" none none).1 alexPhone
      = commitmentSummary (insertedCommitment dbAlexOnly alexUser.id "Exercise daily" 25
          "2024-01-15" "2024-02-15" none "one_time_on_failure" none none) := by
  have h := C2_amended_create_then_lookup dbAlexOnly alexPhone "Exercise daily" 25
    "2024-01-15" "2024-02-15" none "one_time_on_failure" none none
    alexUser [] (by decide) (by decide)
  exact ⟨by decide, by decide, h.2.2.1, h.2.2.2⟩

/-- Claim C4 counterexample: for Alex (name set, no active commitment) the
resolver returns the literal status `"user_exists_no_goal:Alex"`, not the
claimed `"existing_no_goal:Alex"`. -/
theorem C4_counterexample :
    (get_user_status dbAlexOnly alexPhone).2 = "user_exists_no_goal:Alex"
    ∧ (get_user_status dbAlexOnly alexPhone).2 ≠ "existing_no_goal:Alex" := by
  constructor
  · decide
  · decide

/-- Claim C4, amended: for a user with a (non-empty) name and no active
commitment the resolver returns `user_exists_no_goal:<name>`, and with an
active commitment `user_exists_active_goal:<name>`; the store is not
modified. -/
theorem C4_amended_status_strings (db : DB) (p : String) (u : UserRow)
    (us : List UserRow) (n : String)
    (hu : usersFor db p = u :: us) (hname : u.name = some n) (hn : n ≠ "") :
    ((activeFor db u.id).isEmpty = true →
        get_user_status db p = (db, "user_exists_no_goal:" ++ n))
    ∧ ((activeFor db u.id).isEmpty = false →
        get_user_status db p = (db, "user_exists_active_goal:" ++ n)) := by
  constructor <;> intro ha <;>
    simp [get_user_status, hu, hname, pyTruthyStr, hn, ha]

/-- Claim C4 witness for the amended theorem, both branches exercised via
`dbAlexOnly` (no goal). -/
theorem C4_amended_witness :
    usersFor dbAlexOnly alexPhone = alexUser :: []
    ∧ alexUser.name = some "Alex"
    ∧ "Alex" ≠ ""
    ∧ (activeFor dbAlexOnly alexUser.id).isEmpty = true
    ∧ get_user_status dbAlexOnly alexPhone = (dbAlexOnly, "user_exists_no_goal:" ++ "Alex") := by
  have h := C4_amended_status_strings dbAlexOnly alexPhone alexUser [] "Alex"
    (by decide) (by decide) (by decide)
  exact ⟨by decide, by decide, by decide, by decide, h.1 (by decide)⟩

/-- Claim C5: the first `resolve` of an unseen canonical key creates the
user row (key set, no name) and returns `new_user`; resolving again
neither duplicates the row nor changes the answer while the name is
unset. -/
theorem C5_create_on_first_resolve (db : DB) (p : String)
    (h : usersFor db p = []) :
    (get_user_status db p).2 = "new_user"
    ∧ (get_user_status db p).1.users = db.users ++ [createdUser db p]
    ∧ (createdUser db p).phone_number = p
    ∧ (createdUser db p).name = none
    ∧ get_user_status (get_user_status db p).1 p = ((get_user_status db p).1, "new_user") := by
  have h' : db.users.filter (fun x => x.phone_number == p) = [] := h
  refine ⟨by simp [get_user_status, h], by simp [get_user_status, h], rfl, rfl, ?_⟩
  simp [get_user_status, h, usersFor, List.filter_append, h', pyTruthyStr, createdUser]

/-- Claim C5 witness, at the empty store. -/
theorem C5_witness :
    usersFor emptyDB "whatsapp:+15551230000" = []
    ∧ (get_user_status emptyDB "whatsapp:+15551230000").2 = "new_user"
    ∧ (get_user_status emptyDB "whatsapp:+15551230000").1.users
        = emptyDB.users ++ [createdUser emptyDB "whatsapp:+15551230000"]
    ∧ (createdUser emptyDB "whatsapp:+15551230000").phone_number = "whatsapp:+15551230000"
    ∧ (createdUser emptyDB "whatsapp:+15551230000").name = none
    ∧ get_user_status (get_user_status emptyDB "whatsapp:+15551230000").1 "whatsapp:+15551230000"
        = ((get_user_status emptyDB "whatsapp:+15551230000").1, "new_user") := by
  have h := C5_create_on_first_resolve emptyDB "whatsapp:+15551230000" (by decide)
  exact ⟨by decide, h.1, h.2.1, h.2.2.1, h.2.2.2.1, h.2.2.2.2⟩

/-- Claim C10: `create_verification_record` always leaves the store
unchanged and returns an error string, because the keyword arguments
(`user_phone`, `status`, `notes`) cannot bind against
the declared parameters of `create_verification`, so the call raises and is caught
(a JSON-parse failure is caught the same way). -/
theorem C10_always_error (env : Env) (db : DB) (user_phone goal : String)
    (parsed : Option FlowVerdict) :
    (create_verification_record env db user_phone goal parsed).1 = db
    ∧ strContains (create_verification_record env db user_phone goal parsed).2
        "Error creating verification record" = true := by
  have hbind : kwargsBind createVerificationParams createVerificationRequired
      recordCallKwargs = false := by decide
  cases parsed with
  | none =>
      refine ⟨rfl, ?_⟩
      simp only [create_verification_record]
      decide
  | some r =>
      constructor
      · simp [create_verification_record, hbind]
      · simp only [create_verification_record, hbind, Bool.false_eq_true, if_false]
        decide

/-! ## Claims C6 and C3: the proof-submission FSM -/

theorem start_db (env : Env) (w : World) (p : String) (u : UserRow) (us : List UserRow)
    (hu : usersFor w.db p = u :: us) :
    (start_proof_submission env w p).1.db
      = { w.db with users := w.db.users.map (fun r =>
            if r.id == u.id then
              { r with proof_submission_state := some "awaiting_proof_photo",
                       proof_submission_data := manageNewData u.proof_submission_data none }
            else r) } := by
  by_cases he : env.twilioConfigured
  · simp [start_proof_submission, he, manage_state_db w.db p _ _ u us hu]
  · simp [start_proof_submission, he, manage_state_db w.db p _ _ u us hu]

/-- Claim C6, amended: after `start(phone)` for an existing user the
proof-submission state is `awaiting_proof_photo`, but a stale payload is
written back unchanged rather than cleared — the stored payload is
`manageNewData old none`, i.e. `None` only when the old payload was
already empty/absent. -/
theorem C6_amended_start_sets_state (env : Env) (w : World) (p : String)
    (u : UserRow) (us : List UserRow)
    (hu : usersFor w.db p = u :: us) :
    usersFor (start_proof_submission env w p).1.db p
      = { u with proof_submission_state := some "awaiting_proof_photo",
                 proof_submission_data := manageNewData u.proof_submission_data none }
        :: us.map (fun r =>
             if r.id == u.id then
               { r with proof_submission_state := some "awaiting_proof_photo",
                        proof_submission_data := manageNewData u.proof_submission_data none }
             else r) := by
  have hu' : w.db.users.filter (fun x => x.phone_number == p) = u :: us := hu
  have hfphone : ∀ r : UserRow,
      ((if r.id == u.id then
          { r with proof_submission_state := some "awaiting_proof_photo",
                   proof_submission_data := manageNewData u.proof_submission_data none }
        else r) : UserRow).phone_number = r.phone_number := by
    intro r
    split <;> rfl
  show ((start_proof_submission env w p).1.db).users.filter (fun x => x.phone_number == p) = _
  rw [start_db env w p u us hu]
  show (w.db.users.map (fun r =>
      if r.id == u.id then
        { r with proof_submission_state := some "awaiting_proof_photo",
                 proof_submission_data := manageNewData u.proof_submission_data none }
      else r)).filter (fun x => x.phone_number == p) = _
  rw [filter_map_phone _ _ _ hfphone, hu']
  simp

/-- Claim C6 counterexample: starting a submission for a user with a stale
payload leaves that payload in place — after `start` the state is
`awaiting_proof_photo` but the payload is still `{"type": "photo"}`,
neither `None` nor empty. -/
theorem C6_counterexample :
    ((start_proof_submission envA (worldOf dbStale) alexPhone).1.db.users.map
        (fun u => u.proof_submission_state)) = [some "awaiting_proof_photo"]
    ∧ ((start_proof_submission envA (worldOf dbStale) alexPhone).1.db.users.map
        (fun u => u.proof_submission_data)) = [some [("type", "photo")]]
    ∧ some [("type", "photo")] ≠ (none : Option (List (String × String)))
    ∧ some [("type", "photo")] ≠ some ([] : List (String × String)) := by
  refine ⟨by decide, by decide, by decide, by decide⟩

/-- Claim C6 witness for the amended theorem, at `dbStale`. -/
theorem C6_witness :
    usersFor (worldOf dbStale).db alexPhone = staleUser :: []
    ∧ usersFor (start_proof_submission envA (worldOf dbStale) alexPhone).1.db alexPhone
      = { staleUser with proof_submission_state := some "awaiting_proof_photo",
                         proof_submission_data := manageNewData staleUser.proof_submission_data none }
        :: ([] : List UserRow).map (fun r =>
             if r.id == staleUser.id then
               { r with proof_submission_state := some "awaiting_proof_photo",
                        proof_submission_data := manageNewData staleUser.proof_submission_data none }
             else r) := by
  have h := C6_amended_start_sets_state envA (worldOf dbStale) alexPhone staleUser []
    (by decide)
  exact ⟨by decide, h⟩

/-- Claim C3 counterexample: Alex is `AWAITING_PROOF_PHOTO` with the
payload `{"type": "photo"}` and an active commitment; advancing with a
media reference resets the state and records exactly one verification with
the media reference, but the payload is written back unchanged instead of
being cleared. -/
theorem C3_counterexample :
    ((process_proof_submission_response envA (worldOf dbAwaiting) alexPhone "here"
        (some "img://1")).1.db.users.map (fun u => u.proof_submission_state))
      = [none]
    ∧ ((process_proof_submission_response envA (worldOf dbAwaiting) alexPhone "here"
        (some "img://1")).1.db.users.map (fun u => u.proof_submission_data))
      = [some [("type", "photo")]]
    ∧ some [("type", "photo")] ≠ (none : Option (List (String × String)))
    ∧ some [("type", "photo")] ≠ some ([] : List (String × String)) := by
  refine ⟨by decide, by decide, by decide, by decide⟩

/-- Claim C3, amended: for a user in `awaiting_proof_photo` with an active
commitment, advancing with a media reference resets the state to `NONE`,
writes the payload back unchanged (`manageNewData old none`, cleared only
when it was already empty), appends exactly one verification row with the
media reference as `proof_url`, the current date as due date and the free
text (default `"Photo proof submitted"` when empty) as justification,
then dispatches the success confirmation (provided the serialized payload
does not itself contain the no-active sentinel text). -/
theorem C3_amended_advance_with_media (env : Env) (w : World) (p msg m : String)
    (u : UserRow) (us : List UserRow) (c : CommitmentRow) (cs : List CommitmentRow)
    (hu : usersFor w.db p = u :: us)
    (hst : u.proof_submission_state = some "awaiting_proof_photo")
    (hno : strContains (get_proof_submission_state w.db p)
             "No active proof submission process" = false)
    (hc : activeFor w.db u.id = c :: cs)
    (htw : env.twilioConfigured = true) :
    usersFor (process_proof_submission_response env w p msg (some m)).1.db p
      = { u with proof_submission_state := none,
                 proof_submission_data := manageNewData u.proof_submission_data none }
        :: us.map (fun r =>
             if r.id == u.id then
               { r with proof_submission_state := none,
                        proof_submission_data := manageNewData u.proof_submission_data none }
             else r)
    ∧ (process_proof_submission_response env w p msg (some m)).1.db.verifications
      = w.db.verifications
        ++ [{ commitment_id := c.id, due_date := env.today,
              status := "completed_on_time", proof_url := some m,
              justification := some (if msg == "" then "Photo proof submitted" else msg),
              verified_at := env.now }]
    ∧ (process_proof_submission_response env w p msg (some m)).1.sends
      = w.sends ++ [(p, proofSuccessBody)]
    ∧ (process_proof_submission_response env w p msg (some m)).2
      = "Message sent successfully with SID: " ++ env.sid := by
  have hu' : w.db.users.filter (fun x => x.phone_number == p) = u :: us := hu
  have hsr : get_proof_submission_state w.db p
      = "State: " ++ "awaiting_proof_photo" ++ ", Data: "
          ++ pyDictRepr (u.proof_submission_data.getD []) := by
    have hbe : ("awaiting_proof_photo" == "") = false := by decide
    simp [get_proof_submission_state, hu, hst, hbe]
  have hg2 : strContains (get_proof_submission_state w.db p)
      "State: awaiting_proof_photo" = true := by
    rw [hsr]
    exact strContains_append_left _ _ _ (by decide)
  have hfphone : ∀ r : UserRow,
      ((if r.id == u.id then
          { r with proof_submission_state := none,
                   proof_submission_data := manageNewData u.proof_submission_data none }
        else r) : UserRow).phone_number = r.phone_number := by
    intro r
    split <;> rfl
  have hman := manage_state_db w.db p none none u us hu
  have husers1 : usersFor (manage_proof_submission_state w.db p none none).1 p
      = { u with proof_submission_state := none,
                 proof_submission_data := manageNewData u.proof_submission_data none }
        :: us.map (fun r =>
             if r.id == u.id then
               { r with proof_submission_state := none,
                        proof_submission_data := manageNewData u.proof_submission_data none }
             else r) := by
    rw [usersFor, hman]
    show (w.db.users.map (fun r =>
        if r.id == u.id then
          { r with proof_submission_state := none,
                   proof_submission_data := manageNewData u.proof_submission_data none }
        else r)).filter (fun x => x.phone_number == p) = _
    rw [filter_map_phone _ _ _ hfphone, hu']
    simp
  have hact1 : activeFor (manage_proof_submission_state w.db p none none).1 u.id
      = c :: cs := by
    rw [hman]
    exact hc
  have hcv := fun (j : Option String) =>
    create_verification_eq env (manage_proof_submission_state w.db p none none).1
    p env.today (some m) j
    ({ u with proof_submission_state := none,
              proof_submission_data := manageNewData u.proof_submission_data none })
    (us.map (fun r =>
       if r.id == u.id then
         { r with proof_submission_state := none,
                  proof_submission_data := manageNewData u.proof_submission_data none }
       else r))
    c cs husers1 hact1
  have hver1 : (manage_proof_submission_state w.db p none none).1.verifications
      = w.db.verifications := by rw [hman]
  have husers1f : List.filter (fun x => x.phone_number == p)
      (manage_proof_submission_state w.db p none none).1.users
      = { u with proof_submission_state := none,
                 proof_submission_data := manageNewData u.proof_submission_data none }
        :: us.map (fun r =>
             if r.id == u.id then
               { r with proof_submission_state := none,
                        proof_submission_data := manageNewData u.proof_submission_data none }
             else r) := husers1
  refine ⟨?_, ?_, ?_, ?_⟩ <;>
    simp [process_proof_submission_response, hno, hg2, hcv, husers1f, hver1,
      send_whatsapp_message, htw, usersFor]

/-- Claim C3 witness for the amended theorem, at `dbAwaiting`. -/
theorem C3_witness :
    usersFor (worldOf dbAwaiting).db alexPhone = awaitingUser :: []
    ∧ awaitingUser.proof_submission_state = some "awaiting_proof_photo"
    ∧ strContains (get_proof_submission_state (worldOf dbAwaiting).db alexPhone)
        "No active proof submission process" = false
    ∧ activeFor (worldOf dbAwaiting).db awaitingUser.id = oldCommitment :: []
    ∧ envA.twilioConfigured = true
    ∧ (process_proof_submission_response envA (worldOf dbAwaiting) alexPhone "here"
        (some "img://1")).1.db.verifications
      = (worldOf dbAwaiting).db.verifications
        ++ [{ commitment_id := oldCommitment.id, due_date := envA.today,
              status := "completed_on_time", proof_url := some "img://1",
              justification := some (if "here" == "" then "Photo proof submitted" else "here"),
              verified_at := envA.now }]
    ∧ (process_proof_submission_response envA (worldOf dbAwaiting) alexPhone "here"
        (some "img://1")).1.sends
      = (worldOf dbAwaiting).sends ++ [(alexPhone, proofSuccessBody)] := by
  have h := C3_amended_advance_with_media envA (worldOf dbAwaiting) alexPhone "here" "img://1"
    awaitingUser [] oldCommitment []
    (by decide) (by decide) (by decide) (by decide) (by decide)
  exact ⟨by decide, by decide, by decide, by decide, by decide, h.2.1, h.2.2.1⟩

/-! ## Claims C7 and C9: the webhook handler -/

/-- Claim C7 counterexample: a request whose `Body` and media/flow data
are all absent is not rejected — the handler substitutes the placeholder
and invokes the agent, returning ok, so "reject with a structured error,
no side effects" fails for the missing-body half of the claim. -/
theorem C7_counterexample :
    (handle_whatsapp_message envA (worldOf dbAlexOnly) form7).2 = WebResp.ok
    ∧ (handle_whatsapp_message envA (worldOf dbAlexOnly) form7).1.agentCalls
      ≠ (worldOf dbAlexOnly).agentCalls := by
  constructor
  · decide
  · decide

/-- Claim C7, amended: a missing (or empty) `From` is rejected with the
structured error and no side effects; but a request missing both `Body`
and media is not rejected — when no proof submission is in progress the
body is replaced by the placeholder `"[Media message received]"` and the
agent is invoked. -/
theorem C7_amended_missing_fields :
    (∀ (env : Env) (w : World) (form : Form), form.sender.getD "" = "" →
        handle_whatsapp_message env w form = (w, WebResp.error "Missing sender number"))
    ∧ (∀ (env : Env) (w : World) (form : Form),
        form.body = none → form.mediaUrl0 = none → env.agentOk = true →
        canon (form.sender.getD "") ≠ "" →
        strContains (get_proof_submission_state w.db (canon (form.sender.getD "")))
          "No active proof submission process" = true →
        handle_whatsapp_message env w form
          = ({ w with agentCalls := w.agentCalls
                 ++ [agentMessage (canon (form.sender.getD "")) "[Media message received]"] },
             WebResp.ok)) := by
  constructor
  · intro env w form h
    have hc : canon (form.sender.getD "") = "" := by rw [h]; rfl
    simp [handle_whatsapp_message, hc]
  · intro env w form hb hm hag hcanon hst
    have hbeq : (canon (form.sender.getD "") == "") = false :=
      beq_eq_false_iff_ne.mpr hcanon
    simp [handle_whatsapp_message, hb, hm, hbeq, hst, hag]

/-- Claim C7 witness for the amended theorem: a `From`-less request at the
empty store, and a body-and-media-less request from Alex. -/
theorem C7_witness :
    (form8.sender.getD "" = ""
      ∧ handle_whatsapp_message envA (worldOf emptyDB) form8
          = (worldOf emptyDB, WebResp.error "Missing sender number"))
    ∧ (form7.body = none ∧ form7.mediaUrl0 = none ∧ envA.agentOk = true
      ∧ canon (form7.sender.getD "") ≠ ""
      ∧ strContains (get_proof_submission_state (worldOf dbAlexOnly).db
            (canon (form7.sender.getD ""))) "No active proof submission process" = true
      ∧ handle_whatsapp_message envA (worldOf dbAlexOnly) form7
          = ({ worldOf dbAlexOnly with
                 agentCalls := (worldOf dbAlexOnly).agentCalls
                   ++ [agentMessage (canon (form7.sender.getD ""))
                         "[Media message received]"] },
             WebResp.ok)) := by
  refine ⟨⟨by decide, C7_amended_missing_fields.1 envA (worldOf emptyDB) form8 (by decide)⟩,
    by decide, by decide, by decide, by decide, by decide,
    C7_amended_missing_fields.2 envA (worldOf dbAlexOnly) form7
      (by decide) (by decide) (by decide) (by decide) (by decide)⟩

/-- Claim C9: an inbound message whose sender has no user row makes
`get_proof_submission_state` return the `"Error: User not found."`
sentinel, which lacks the no-active guard text, so the handler takes the
proof-submission branch; that branch matches no state, so the turn ends
with status ok, no user created, no agent invocation and no send — the
world is unchanged. -/
theorem C9_unknown_user_short_circuit (env : Env) (w : World) (form : Form)
    (hcanon : canon (form.sender.getD "") ≠ "")
    (hu : usersFor w.db (canon (form.sender.getD "")) = []) :
    handle_whatsapp_message env w form = (w, WebResp.ok) := by
  have hbeq : (canon (form.sender.getD "") == "") = false :=
    beq_eq_false_iff_ne.mpr hcanon
  simp [handle_whatsapp_message, hbeq, get_proof_submission_state, hu,
    process_proof_submission_response, notFound_lacks_noActive, notFound_lacks_awaiting]

/-- Claim C9 witness: a first-contact message at the empty store. -/
theorem C9_witness :
    canon (form9.sender.getD "") ≠ ""
    ∧ usersFor (worldOf emptyDB).db (canon (form9.sender.getD "")) = []
    ∧ handle_whatsapp_message envA (worldOf emptyDB) form9 = (worldOf emptyDB, WebResp.ok) := by
  exact ⟨by decide, by decide,
    C9_unknown_user_short_circuit envA (worldOf emptyDB) form9 (by decide) (by decide)⟩

/-! ## Claim C8: canonicalization idempotence -/

/-- Claim C8 counterexample: canonicalization is not idempotent for every
non-empty raw sender.  For `"whatsapp:whatswhatsapp:app:123"` removing the
non-overlapping occurrences of `"whatsapp:"` manufactures a fresh
occurrence at the junction, so the second canonicalization strips
further: `canon x = "whatsapp:+whatsapp:123"` but
`canon (canon x) = "whatsapp:+123"`. -/
theorem C8_counterexample :
    canon (canon "whatsapp:whatswhatsapp:app:123")
      ≠ canon "whatsapp:whatswhatsapp:app:123"
    ∧ "whatsapp:whatswhatsapp:app:123" ≠ "" := by
  constructor
  · decide
  · decide

/-- Claim C8, amended: `canon` is idempotent on every raw sender whose
stripped remainder (after removing the `"whatsapp:"` occurrences and
trimming) contains no further occurrence of the tag — every ordinary
sender id — so canonical values produced from such senders are returned
unchanged by a second canonicalization; on pathological inputs whose
remainder still contains the tag, a second pass strips further. -/
theorem C8_amended_idempotent_no_nested_tag (s : String)
    (h : containsWA (pyStrip (removeAllWA s.data)) = false) :
    canon (canon s) = canon s := by
  show (⟨canonChars (String.data ⟨canonChars s.data⟩)⟩ : String) = ⟨canonChars s.data⟩
  rw [show String.data (⟨canonChars s.data⟩ : String) = canonChars s.data from rfl]
  rw [canonChars_idem _ h]

/-- Claim C8 witness: an ordinary prefixed sender id without a `+`. -/
theorem C8_witness :
    containsWA (pyStrip (removeAllWA ("whatsapp:5215512345678").data)) = false
    ∧ canon (canon "whatsapp:5215512345678") = canon "whatsapp:5215512345678" :=
  ⟨by decide, C8_amended_idempotent_no_nested_tag "whatsapp:5215512345678" (by decide)⟩

/-- Claim C10 witness: a concrete parsed verdict at the empty store. -/
theorem C10_witness :
    (create_verification_record envA emptyDB alexPhone "Run"
        (some { completed := true, reasoning := "ok" })).1 = emptyDB
    ∧ strContains (create_verification_record envA emptyDB alexPhone "Run"
        (some { completed := true, reasoning := "ok" })).2
        "Error creating verification record" = true :=
  C10_always_error envA emptyDB alexPhone "Run" (some { completed := true, reasoning := "ok" })
